import Mathlib

set_option maxRecDepth 4000

/-!
# Verification of the screenshot CLI (src/screenshot_rust/src/main.rs)

Shallow embedding of the program's data model and of `take_screenshot`.
The external browser (chromiumoxide), the filesystem and the base64 crate
are modelled as oracles: a `World` record supplies the outcome of every
external call.  `take_screenshot` is translated clause by clause from the
Rust source; `none` models a panic (the `.unwrap()` on the browser-config
builder result at the launch site).
-/

namespace Screenshot

/-- A byte, as produced by the browser (`Vec<u8>` element in Rust). -/
abbrev Byte := Fin 256

/-- `struct Args` from main.rs: the command-line configuration.
`width`/`height` are `u32`, `quality` is `u8` (hence `Fin 256`). -/
structure Args where
  url : String
  output : String
  width : Nat
  height : Nat
  full_page : Bool
  quality : Byte
  format : String
  base64 : Bool
deriving DecidableEq

/-- `struct ScreenshotResult` from main.rs. -/
structure ScreenshotResult where
  success : Bool
  url : String
  width : Nat
  height : Nat
  full_page : Bool
  format : String
  quality : Byte
  size : Nat
  base64_data : Option String
  file_path : Option String
  error : Option String
deriving DecidableEq

/-- The CDP screenshot image format (`CaptureScreenshotFormat`). -/
inductive CaptureScreenshotFormat where
  | jpeg
  | png
deriving DecidableEq

/-- The CDP capture request built in `take_screenshot` (format, i64 quality,
capture-beyond-viewport flag). -/
structure CaptureScreenshotParams where
  format : CaptureScreenshotFormat
  quality : Int
  capture_beyond_viewport : Bool
deriving DecidableEq

/-- The browser launch configuration.  The source builds it with
`BrowserConfig::builder().build()`: all defaults, no field drawn from the
arguments, so it carries no data here. -/
structure BrowserConfig where
  deriving DecidableEq

/-- The standard base64 alphabet (RFC 4648), as used by
`base64::engine::general_purpose::STANDARD`. -/
def b64Alphabet : List Char :=
  "ABCDEFGHIJKLMNOPQRSTUVWXYZabcdefghijklmnopqrstuvwxyz0123456789+/".toList

/-- The character encoding a 6-bit group. -/
def b64Char (n : Nat) : Char :=
  (b64Alphabet[n]?).getD 'A'

/-- The 6-bit value of an alphabet character (used by the decoder). -/
def b64Val (c : Char) : Nat :=
  b64Alphabet.indexOf c

/-- Standard base64 encoding of a byte list, with `=` padding, as performed
by `general_purpose::STANDARD.encode`. -/
def b64encodeList : List Byte → List Char
  | [] => []
  | [b0] =>
      [b64Char (b0.val / 4), b64Char (b0.val % 4 * 16), '=', '=']
  | [b0, b1] =>
      [b64Char (b0.val / 4), b64Char (b0.val % 4 * 16 + b1.val / 16),
       b64Char (b1.val % 16 * 4), '=']
  | b0 :: b1 :: b2 :: rest =>
      b64Char (b0.val / 4) :: b64Char (b0.val % 4 * 16 + b1.val / 16) ::
      b64Char (b1.val % 16 * 4 + b2.val / 64) :: b64Char (b2.val % 64) ::
      b64encodeList rest

/-- `general_purpose::STANDARD.encode` on the captured bytes. -/
def b64encode (bs : List Byte) : String :=
  String.mk (b64encodeList bs)

/-- Standard base64 decoding (inverse of `b64encodeList` on well-formed
input); used to state that decoding the emitted payload recovers the
captured bytes. -/
def b64decodeList : List Char → List Nat
  | c0 :: c1 :: c2 :: c3 :: rest =>
      if c2 = '=' ∧ c3 = '=' ∧ rest = [] then
        [b64Val c0 * 4 + b64Val c1 / 16]
      else if c3 = '=' ∧ rest = [] then
        [b64Val c0 * 4 + b64Val c1 / 16,
         b64Val c1 % 16 * 16 + b64Val c2 / 4]
      else
        (b64Val c0 * 4 + b64Val c1 / 16) ::
        (b64Val c1 % 16 * 16 + b64Val c2 / 4) ::
        (b64Val c2 % 4 * 64 + b64Val c3) ::
        b64decodeList rest
  | _ => []

/-- Standard base64 decoding of a string. -/
def b64decode (s : String) : List Nat :=
  b64decodeList s.toList

/-- Oracle for the external world: the outcome of each fallible external
call made by `take_screenshot`.  Each field is a function of exactly the
data the source passes to the corresponding call. -/
structure World where
  /-- `BrowserConfig::builder().build()` (can fail, e.g. when no browser
  executable is detected). -/
  buildConfig : Except String BrowserConfig
  /-- `Browser::launch(cfg)`. -/
  launch : BrowserConfig → Except String Unit
  /-- `browser.new_page(url)` (called with "about:blank"). -/
  newPage : String → Except String Unit
  /-- `page.goto(url)`. -/
  goto : String → Except String Unit
  /-- `page.wait_for_navigation()`. -/
  waitNav : Except String Unit
  /-- `page.screenshot(params)`: the captured bytes on success. -/
  screenshot : CaptureScreenshotParams → Except String (List Byte)
  /-- `fs::write(path, data)`. -/
  fsWrite : String → List Byte → Except String Unit

/-- The failure `ScreenshotResult` record built at every failure site of
`take_screenshot`: echoed configuration, the given size, no payload, no
path, the given error message. -/
def failureResult (args : Args) (sz : Nat) (msg : String) : ScreenshotResult :=
  { success := false
    url := args.url
    width := args.width
    height := args.height
    full_page := args.full_page
    format := args.format
    quality := args.quality
    size := sz
    base64_data := none
    file_path := none
    error := some msg }

/-- The `CaptureScreenshotParams` built in `take_screenshot` (main.rs lines
165-172): format from a match accepting "jpeg" and "jpg", quality forwarded
only when the format string equals "jpeg" (otherwise the literal 90), and
the full-page flag as capture-beyond-viewport. -/
def captureParams (args : Args) : CaptureScreenshotParams :=
  { format :=
      match args.format with
      | "jpeg" | "jpg" => CaptureScreenshotFormat.jpeg
      | _ => CaptureScreenshotFormat.png
    quality := if args.format = "jpeg" then (args.quality.val : Int) else 90
    capture_beyond_viewport := args.full_page }

/-- `take_screenshot` from main.rs, step by step.  The returned pair is the
result record plus the trace of attempted file writes (path, bytes); the
outer `Option` is `none` when the function panics, which happens exactly
when `BrowserConfig::builder().build()` returns an error and the source's
`.unwrap()` fires. -/
def take_screenshot (args : Args) (w : World) :
    Option (ScreenshotResult × List (String × List Byte)) :=
  match w.buildConfig with
  | .error _ => none
  | .ok cfg =>
  match w.launch cfg with
  | .error e =>
      some (failureResult args 0 ("Failed to launch browser: " ++ e), [])
  | .ok _ =>
  match w.newPage "about:blank" with
  | .error e =>
      some (failureResult args 0 ("Failed to create new page: " ++ e), [])
  | .ok _ =>
  match w.goto args.url with
  | .error e =>
      some (failureResult args 0 ("Failed to navigate to URL: " ++ e), [])
  | .ok _ =>
  match w.waitNav with
  | .error e =>
      some (failureResult args 0 ("Failed to wait for navigation: " ++ e), [])
  | .ok _ =>
  match w.screenshot (captureParams args) with
  | .error e =>
      some (failureResult args 0 ("Failed to capture screenshot: " ++ e), [])
  | .ok data =>
  if args.base64 then
    some ({ success := true
            url := args.url
            width := args.width
            height := args.height
            full_page := args.full_page
            format := args.format
            quality := args.quality
            size := data.length
            base64_data := some (b64encode data)
            file_path := none
            error := none }, [])
  else
    match w.fsWrite args.output data with
    | .error e =>
        some (failureResult args data.length
                ("Failed to save screenshot to file: " ++ e),
              [(args.output, data)])
    | .ok _ =>
        some ({ success := true
                url := args.url
                width := args.width
                height := args.height
                full_page := args.full_page
                format := args.format
                quality := args.quality
                size := data.length
                base64_data := none
                file_path := some args.output
                error := none }, [(args.output, data)])

/-! ## Base64 correctness -/

/-- `b64Val` inverts `b64Char` on 6-bit values. -/
theorem b64Val_b64Char (n : Nat) (h : n < 64) : b64Val (b64Char n) = n := by
  have hfin : ∀ m : Fin 64, b64Val (b64Char m.val) = m.val := by decide
  exact hfin ⟨n, h⟩

/-- `b64Char` never produces the padding character. -/
theorem b64Char_ne_pad (n : Nat) : b64Char n ≠ '=' := by
  by_cases h : n < 64
  · have hfin : ∀ m : Fin 64, b64Char m.val ≠ '=' := by decide
    exact hfin ⟨n, h⟩
  · have hlen : b64Alphabet.length ≤ n := by
      have hl : b64Alphabet.length = 64 := by decide
      omega
    unfold b64Char
    rw [List.getElem?_eq_none hlen]
    decide

/-- Decoding inverts encoding at the level of character lists. -/
theorem b64decodeList_encodeList (bs : List Byte) :
    b64decodeList (b64encodeList bs) = bs.map Fin.val := by
  induction bs using b64encodeList.induct with
  | case1 => rfl
  | case2 b0 =>
      have h0 : b0.val < 256 := b0.isLt
      simp only [b64encodeList, b64decodeList]
      rw [if_pos (by simp)]
      rw [b64Val_b64Char _ (by omega), b64Val_b64Char _ (by omega)]
      simp only [List.map]
      congr 1
      omega
  | case3 b0 b1 =>
      have h0 : b0.val < 256 := b0.isLt
      have h1 : b1.val < 256 := b1.isLt
      simp only [b64encodeList, b64decodeList]
      rw [if_neg (fun h => b64Char_ne_pad _ h.1)]
      rw [if_pos (by simp)]
      rw [b64Val_b64Char _ (by omega), b64Val_b64Char _ (by omega),
          b64Val_b64Char _ (by omega)]
      simp only [List.map]
      congr 1
      · omega
      · congr 1
        omega
  | case4 b0 b1 b2 rest ih =>
      have h0 : b0.val < 256 := b0.isLt
      have h1 : b1.val < 256 := b1.isLt
      have h2 : b2.val < 256 := b2.isLt
      simp only [b64encodeList, b64decodeList]
      rw [if_neg (fun h => b64Char_ne_pad _ h.1)]
      rw [if_neg (fun h => b64Char_ne_pad _ h.1)]
      rw [b64Val_b64Char _ (by omega), b64Val_b64Char _ (by omega),
          b64Val_b64Char _ (by omega), b64Val_b64Char _ (by omega)]
      simp only [List.map]
      rw [ih]
      congr 1
      · omega
      · congr 1
        · omega
        · congr 1
          omega

/-- Decoding the standard base64 encoding of a byte list recovers exactly
the byte values. -/
theorem b64decode_b64encode (bs : List Byte) :
    b64decode (b64encode bs) = bs.map Fin.val := by
  show b64decodeList (b64encodeList bs) = bs.map Fin.val
  exact b64decodeList_encodeList bs

/-! ## Concrete sample data (used to instantiate the theorems) -/

/-- A configuration with all default values and the example URL. -/
def sampleArgs : Args :=
  { url := "https://example.com"
    output := "screenshot.png"
    width := 1920
    height := 1080
    full_page := false
    quality := 90
    format := "png"
    base64 := false }

/-- A tiny captured image (the PNG magic bytes). -/
def sampleBytes : List Byte := [137, 80, 78, 71]

/-- A world in which every external call succeeds. -/
def okWorld : World :=
  { buildConfig := .ok {}
    launch := fun _ => .ok ()
    newPage := fun _ => .ok ()
    goto := fun _ => .ok ()
    waitNav := .ok ()
    screenshot := fun _ => .ok sampleBytes
    fsWrite := fun _ _ => .ok () }

/-- The successful file-mode result of running `sampleArgs` in `okWorld`. -/
def sampleOkResult : ScreenshotResult :=
  { success := true
    url := "https://example.com"
    width := 1920
    height := 1080
    full_page := false
    format := "png"
    quality := 90
    size := 4
    base64_data := none
    file_path := some "screenshot.png"
    error := none }

/-! ## Claims -/

/-- C1: for every configuration and run of `take_screenshot` that returns a
result, on success exactly one of base64 payload and file path is present
(the payload iff the base64 flag is set) and the error is absent; on
failure both are absent and an error message is present. -/
theorem result_shape_invariant (args : Args) (w : World)
    (r : ScreenshotResult) (tr : List (String × List Byte))
    (hr : take_screenshot args w = some (r, tr)) :
    (r.success = true →
      r.error = none ∧
      (args.base64 = true → (∃ s, r.base64_data = some s) ∧ r.file_path = none) ∧
      (args.base64 = false → r.base64_data = none ∧ ∃ p, r.file_path = some p)) ∧
    (r.success = false →
      r.base64_data = none ∧ r.file_path = none ∧ ∃ m, r.error = some m) := by
  unfold take_screenshot at hr
  repeat' split at hr
  all_goals try simp only [Option.some.injEq, Prod.mk.injEq] at hr
  all_goals first
    | exact Option.noConfusion hr
    | (obtain ⟨h1, h2⟩ := hr
       subst h1
       subst h2
       simp_all [failureResult])

/-- Witness for C1 at a concrete configuration and world. -/
theorem result_shape_invariant_witness :
    (sampleOkResult.success = true →
      sampleOkResult.error = none ∧
      (sampleArgs.base64 = true →
        (∃ s, sampleOkResult.base64_data = some s) ∧
        sampleOkResult.file_path = none) ∧
      (sampleArgs.base64 = false →
        sampleOkResult.base64_data = none ∧
        ∃ p, sampleOkResult.file_path = some p)) ∧
    (sampleOkResult.success = false →
      sampleOkResult.base64_data = none ∧ sampleOkResult.file_path = none ∧
      ∃ m, sampleOkResult.error = some m) :=
  result_shape_invariant sampleArgs okWorld sampleOkResult
    [("screenshot.png", sampleBytes)] rfl

/-- A configuration selecting the "jpg" spelling with quality 50. -/
def jpgArgs : Args := { sampleArgs with format := "jpg", quality := 50 }

/-- C2 counterexample: with format string "jpg" the capture request carries
the fixed quality 90, not the configured 50, refuting the claim that the
configured quality is forwarded whenever the format string is "jpeg" or
"jpg". -/
theorem quality_jpg_counterexample :
    ¬ ((jpgArgs.format = "jpeg" ∨ jpgArgs.format = "jpg") →
       (captureParams jpgArgs).quality = (jpgArgs.quality.val : Int)) := by
  decide

/-- C2 (amended): the capture request's quality equals the configured
quality exactly when the format string is "jpeg"; for every other format
string (including "jpg") it is the fixed default 90; and the configured
quality is echoed unchanged in the returned result in all cases. -/
theorem quality_forwarding (args : Args) :
    (args.format = "jpeg" →
      (captureParams args).quality = (args.quality.val : Int)) ∧
    (args.format ≠ "jpeg" → (captureParams args).quality = 90) ∧
    (∀ w r tr, take_screenshot args w = some (r, tr) →
      r.quality = args.quality) := by
  refine ⟨fun h => ?_, fun h => ?_, fun w r tr hr => ?_⟩
  · simp [captureParams, h]
  · simp [captureParams, h]
  · unfold take_screenshot at hr
    repeat' split at hr
    all_goals try simp only [Option.some.injEq, Prod.mk.injEq] at hr
    all_goals first
      | exact Option.noConfusion hr
      | (obtain ⟨h1, h2⟩ := hr
         subst h1
         subst h2
         simp_all [failureResult])

/-- A configuration selecting the "jpeg" spelling with quality 50. -/
def jpegArgs : Args := { sampleArgs with format := "jpeg", quality := 50 }

/-- Witness for C2 (amended) at concrete configurations. -/
theorem quality_forwarding_witness :
    (captureParams jpegArgs).quality = ((50 : Byte).val : Int) ∧
    (captureParams sampleArgs).quality = 90 ∧
    sampleOkResult.quality = sampleArgs.quality :=
  ⟨(quality_forwarding jpegArgs).1 rfl,
   (quality_forwarding sampleArgs).2.1 (by decide),
   (quality_forwarding sampleArgs).2.2 okWorld sampleOkResult
     [("screenshot.png", sampleBytes)] rfl⟩

/-- C3: two configurations that differ only in width and height give the
identical capture request, and under any fixed world the run of the second
is the run of the first with only the echoed width and height fields
replaced (same write trace, same everything else, including panics). -/
theorem width_height_noninterference (a1 a2 : Args) (w : World)
    (hu : a1.url = a2.url) (ho : a1.output = a2.output)
    (hf : a1.full_page = a2.full_page) (hq : a1.quality = a2.quality)
    (hfm : a1.format = a2.format) (hb : a1.base64 = a2.base64) :
    captureParams a1 = captureParams a2 ∧
    take_screenshot a2 w =
      (take_screenshot a1 w).map
        (fun p => ({ p.1 with width := a2.width, height := a2.height }, p.2)) := by
  obtain ⟨u1, o1, w1, h1, f1, q1, fm1, b1⟩ := a1
  obtain ⟨u2, o2, w2, h2, f2, q2, fm2, b2⟩ := a2
  simp only at hu ho hf hq hfm hb
  subst hu ho hf hq hfm hb
  refine ⟨rfl, ?_⟩
  have hcp : captureParams ⟨u1, o1, w1, h1, f1, q1, fm1, b1⟩ =
      captureParams ⟨u1, o1, w2, h2, f1, q1, fm1, b1⟩ := rfl
  unfold take_screenshot
  rw [hcp]
  rcases hbc : w.buildConfig with e | cfg
  · simp [hbc]
  rcases hl : w.launch cfg with e | u
  · simp [hbc, hl, failureResult]
  rcases hnp : w.newPage "about:blank" with e | u
  · simp [hbc, hl, hnp, failureResult]
  rcases hg : w.goto u1 with e | u
  · simp [hbc, hl, hnp, hg, failureResult]
  rcases hwn : w.waitNav with e | u
  · simp [hbc, hl, hnp, hg, hwn, failureResult]
  rcases hs : w.screenshot (captureParams ⟨u1, o1, w2, h2, f1, q1, fm1, b1⟩)
    with e | data
  · simp [hbc, hl, hnp, hg, hwn, hs, failureResult]
  by_cases hb1 : b1
  · simp [hbc, hl, hnp, hg, hwn, hs, hb1]
  · rcases hfw : w.fsWrite o1 data with e | u
    · simp [hbc, hl, hnp, hg, hwn, hs, hb1, hfw, failureResult]
    · simp [hbc, hl, hnp, hg, hwn, hs, hb1, hfw]

/-- A configuration equal to `sampleArgs` except in width and height. -/
def sampleArgsWH : Args := { sampleArgs with width := 800, height := 600 }

/-- Witness for C3 at concrete configurations and world. -/
theorem width_height_noninterference_witness :
    captureParams sampleArgs = captureParams sampleArgsWH ∧
    take_screenshot sampleArgsWH okWorld =
      (take_screenshot sampleArgs okWorld).map
        (fun p =>
          ({ p.1 with width := sampleArgsWH.width, height := sampleArgsWH.height },
           p.2)) :=
  width_height_noninterference sampleArgs sampleArgsWH okWorld
    rfl rfl rfl rfl rfl rfl

/-- C4: if browser launch, page creation, navigation, the navigation wait
or the capture fails (all earlier steps having succeeded), the run stops
there: the result is exactly the failure record echoing the configuration
with size 0 and a message naming the failed step, and no file write occurs;
the world is otherwise arbitrary, so no later step influences the outcome. -/
theorem step_failure_short_circuits (args : Args) (w : World) :
    (∀ cfg, w.buildConfig = .ok cfg → ∀ e, w.launch cfg = .error e →
      take_screenshot args w =
        some (failureResult args 0 ("Failed to launch browser: " ++ e), [])) ∧
    (∀ cfg, w.buildConfig = .ok cfg → w.launch cfg = .ok () →
      ∀ e, w.newPage "about:blank" = .error e →
      take_screenshot args w =
        some (failureResult args 0 ("Failed to create new page: " ++ e), [])) ∧
    (∀ cfg, w.buildConfig = .ok cfg → w.launch cfg = .ok () →
      w.newPage "about:blank" = .ok () →
      ∀ e, w.goto args.url = .error e →
      take_screenshot args w =
        some (failureResult args 0 ("Failed to navigate to URL: " ++ e), [])) ∧
    (∀ cfg, w.buildConfig = .ok cfg → w.launch cfg = .ok () →
      w.newPage "about:blank" = .ok () → w.goto args.url = .ok () →
      ∀ e, w.waitNav = .error e →
      take_screenshot args w =
        some (failureResult args 0 ("Failed to wait for navigation: " ++ e), [])) ∧
    (∀ cfg, w.buildConfig = .ok cfg → w.launch cfg = .ok () →
      w.newPage "about:blank" = .ok () → w.goto args.url = .ok () →
      w.waitNav = .ok () →
      ∀ e, w.screenshot (captureParams args) = .error e →
      take_screenshot args w =
        some (failureResult args 0 ("Failed to capture screenshot: " ++ e), [])) := by
  refine ⟨?_, ?_, ?_, ?_, ?_⟩
  · intro cfg hbc e hl
    simp [take_screenshot, hbc, hl]
  · intro cfg hbc hl e hnp
    simp [take_screenshot, hbc, hl, hnp]
  · intro cfg hbc hl hnp e hg
    simp [take_screenshot, hbc, hl, hnp, hg]
  · intro cfg hbc hl hnp hg e hwn
    simp [take_screenshot, hbc, hl, hnp, hg, hwn]
  · intro cfg hbc hl hnp hg hwn e hs
    simp [take_screenshot, hbc, hl, hnp, hg, hwn, hs]

/-- A world in which launching the browser fails. -/
def launchFailWorld : World :=
  { okWorld with launch := fun _ => .error "boom" }

/-- Witness for C4 at a concrete configuration and world failing at the
launch step. -/
theorem step_failure_short_circuits_witness :
    take_screenshot sampleArgs launchFailWorld =
      some (failureResult sampleArgs 0 ("Failed to launch browser: " ++ "boom"),
            []) :=
  (step_failure_short_circuits sampleArgs launchFailWorld).1 {} rfl "boom" rfl

/-- C5: in file mode, when the capture succeeds but writing the bytes to
the output path fails, the result is the failure record with the file-write
message, no payload, no path, and size equal to the captured byte length. -/
theorem file_write_failure (args : Args) (w : World) (cfg : BrowserConfig)
    (data : List Byte) (e : String)
    (hb : args.base64 = false)
    (hbc : w.buildConfig = .ok cfg)
    (hl : w.launch cfg = .ok ())
    (hnp : w.newPage "about:blank" = .ok ())
    (hg : w.goto args.url = .ok ())
    (hwn : w.waitNav = .ok ())
    (hs : w.screenshot (captureParams args) = .ok data)
    (hfw : w.fsWrite args.output data = .error e) :
    take_screenshot args w =
      some (failureResult args data.length
              ("Failed to save screenshot to file: " ++ e),
            [(args.output, data)]) := by
  simp [take_screenshot, hbc, hl, hnp, hg, hwn, hs, hb, hfw]

/-- A world in which only the final file write fails. -/
def writeFailWorld : World :=
  { okWorld with fsWrite := fun _ _ => .error "Permission denied" }

/-- Witness for C5 at a concrete configuration and world. -/
theorem file_write_failure_witness :
    take_screenshot sampleArgs writeFailWorld =
      some (failureResult sampleArgs sampleBytes.length
              ("Failed to save screenshot to file: " ++ "Permission denied"),
            [(sampleArgs.output, sampleBytes)]) :=
  file_write_failure sampleArgs writeFailWorld {} sampleBytes
    "Permission denied" rfl rfl rfl rfl rfl rfl rfl rfl

/-- A world in which building the default browser configuration fails, as
when no browser executable can be detected on the machine. -/
def panicWorld : World :=
  { okWorld with
      buildConfig := .error "Could not auto detect a chrome executable" }

/-- C6 fails on the code: when `BrowserConfig::builder().build()` returns
an error the source calls `.unwrap()` on it and panics instead of
returning a `ScreenshotResult`; at this input the model returns `none`
(panic), not a result value. -/
theorem take_screenshot_panics_on_config_failure :
    take_screenshot sampleArgs panicWorld = none := rfl

/-- C7: on a successful run with the base64 flag set, the payload is the
standard base64 encoding of exactly the captured bytes, and decoding it
recovers those bytes — in particular a byte sequence whose length equals
the reported size. -/
theorem base64_payload_roundtrip (args : Args) (w : World)
    (cfg : BrowserConfig) (data : List Byte)
    (hb : args.base64 = true)
    (hbc : w.buildConfig = .ok cfg)
    (hl : w.launch cfg = .ok ())
    (hnp : w.newPage "about:blank" = .ok ())
    (hg : w.goto args.url = .ok ())
    (hwn : w.waitNav = .ok ())
    (hs : w.screenshot (captureParams args) = .ok data) :
    take_screenshot args w =
      some ({ success := true, url := args.url, width := args.width,
              height := args.height, full_page := args.full_page,
              format := args.format, quality := args.quality,
              size := data.length, base64_data := some (b64encode data),
              file_path := none, error := none }, []) ∧
    b64decode (b64encode data) = data.map Fin.val ∧
    (b64decode (b64encode data)).length = data.length := by
  refine ⟨?_, b64decode_b64encode data, ?_⟩
  · simp [take_screenshot, hbc, hl, hnp, hg, hwn, hs, hb]
  · rw [b64decode_b64encode data, List.length_map]

/-- The sample configuration with the base64 flag set. -/
def b64Args : Args := { sampleArgs with base64 := true }

/-- Witness for C7 at a concrete configuration and world. -/
theorem base64_payload_roundtrip_witness :
    take_screenshot b64Args okWorld =
      some ({ success := true, url := b64Args.url, width := b64Args.width,
              height := b64Args.height, full_page := b64Args.full_page,
              format := b64Args.format, quality := b64Args.quality,
              size := sampleBytes.length,
              base64_data := some (b64encode sampleBytes),
              file_path := none, error := none }, []) ∧
    b64decode (b64encode sampleBytes) = sampleBytes.map Fin.val ∧
    (b64decode (b64encode sampleBytes)).length = sampleBytes.length :=
  base64_payload_roundtrip b64Args okWorld {} sampleBytes
    rfl rfl rfl rfl rfl rfl rfl

/-- C8: with the base64 flag set, no file write is ever attempted (the
write trace of the run is empty), whatever the output path, and the result
carries no file path. -/
theorem base64_no_file_write (args : Args) (w : World)
    (r : ScreenshotResult) (tr : List (String × List Byte))
    (hb : args.base64 = true)
    (hr : take_screenshot args w = some (r, tr)) :
    tr = [] ∧ r.file_path = none := by
  unfold take_screenshot at hr
  repeat' split at hr
  all_goals try simp only [Option.some.injEq, Prod.mk.injEq] at hr
  all_goals first
    | exact Option.noConfusion hr
    | (obtain ⟨h1, h2⟩ := hr
       subst h1
       subst h2
       simp_all [failureResult])

/-- The successful base64-mode result of running `b64Args` in `okWorld`. -/
def sampleB64Result : ScreenshotResult :=
  { success := true
    url := "https://example.com"
    width := 1920
    height := 1080
    full_page := false
    format := "png"
    quality := 90
    size := 4
    base64_data := some (b64encode sampleBytes)
    file_path := none
    error := none }

/-- Witness for C8 at a concrete configuration and world. -/
theorem base64_no_file_write_witness :
    ([] : List (String × List Byte)) = [] ∧
    sampleB64Result.file_path = none :=
  base64_no_file_write b64Args okWorld sampleB64Result [] rfl rfl

/-- C9: every format string other than "jpeg" and "jpg" (e.g. "gif" or the
empty string) yields a PNG capture request, while the result echoes the
raw format string unchanged. -/
theorem format_fallback_png (args : Args)
    (h1 : args.format ≠ "jpeg") (h2 : args.format ≠ "jpg") :
    (captureParams args).format = CaptureScreenshotFormat.png ∧
    ∀ w r tr, take_screenshot args w = some (r, tr) →
      r.format = args.format := by
  constructor
  · unfold captureParams
    split
    all_goals simp_all
  · intro w r tr hr
    unfold take_screenshot at hr
    repeat' split at hr
    all_goals try simp only [Option.some.injEq, Prod.mk.injEq] at hr
    all_goals first
      | exact Option.noConfusion hr
      | (obtain ⟨hA, hB⟩ := hr
         subst hA
         subst hB
         simp_all [failureResult])

/-- The sample configuration with an unrecognized format string. -/
def gifArgs : Args := { sampleArgs with format := "gif" }

/-- The successful file-mode result of running `gifArgs` in `okWorld`. -/
def gifOkResult : ScreenshotResult :=
  { success := true
    url := "https://example.com"
    width := 1920
    height := 1080
    full_page := false
    format := "gif"
    quality := 90
    size := 4
    base64_data := none
    file_path := some "screenshot.png"
    error := none }

/-- Witness for C9 at a concrete configuration and world. -/
theorem format_fallback_png_witness :
    (captureParams gifArgs).format = CaptureScreenshotFormat.png ∧
    gifOkResult.format = gifArgs.format :=
  ⟨(format_fallback_png gifArgs (by decide) (by decide)).1,
   (format_fallback_png gifArgs (by decide) (by decide)).2 okWorld gifOkResult
     [("screenshot.png", sampleBytes)] rfl⟩

/-- C10: the quality value is never range-validated: every u8 value is an
admissible configuration, and with format string "jpeg" it is forwarded
verbatim into the capture request even when it lies outside [1,100]. -/
theorem quality_never_validated (q : Byte) :
    (∃ a : Args, a.quality = q ∧ a.format = "jpeg") ∧
    (∀ a : Args, a.quality = q → a.format = "jpeg" →
      (captureParams a).quality = (q.val : Int)) := by
  refine ⟨⟨{ sampleArgs with quality := q, format := "jpeg" }, rfl, rfl⟩, ?_⟩
  intro a hq hf
  simp [captureParams, hf, hq]

/-- The sample configuration with format "jpeg" and the out-of-range
quality 255. -/
def extremeArgs : Args := { sampleArgs with quality := 255, format := "jpeg" }

/-- Witness for C10 at quality 255, a value outside [1,100]. -/
theorem quality_never_validated_witness :
    ((∃ a : Args, a.quality = (255 : Byte) ∧ a.format = "jpeg") ∧
      (captureParams extremeArgs).quality = ((255 : Byte).val : Int)) ∧
    ¬((255 : Byte).val ≤ 100) :=
  ⟨⟨(quality_never_validated 255).1,
    (quality_never_validated 255).2 extremeArgs rfl rfl⟩, by decide⟩

end Screenshot
